import Mathlib

/-!
Verification of the Device Resolution Engine against its implementation.

The engine lives in the repository's main server module (the `/log/:id`
handler together with `identifyiPhoneModel`, `identifyAndroidByGPU`,
`isiPhoneESIMCompatible`, `searchGSMADeviceFallback`) and the reference
corpus module (`searchDevice`, `advancedDeviceMatch`, `searchDevices`).
Everything below is a shallow embedding of that JavaScript code:

* JavaScript strings are `String`, manipulated through executable
  `List Char` helpers (ASCII lower-casing matches both SQLite `LOWER` and
  `String.prototype.toLowerCase` on the ASCII data appearing here);
* nullable values are `Option`; JavaScript truthiness of a string is
  "present and non-empty", of a number "present and non-zero";
* the SQLite corpus is a list of rows; `LIKE '%t%'` on a wildcard-free
  term is case-insensitive substring containment, and an unavailable or
  throwing store is a `CorpusState` constructor (the JS code catches every
  store error and returns null / an empty list);
* `devicePixelRatio` is a rational; `Math.round` is floor of `q + 1/2`,
  computed on numerator and denominator to stay kernel-reducible.
-/

namespace DeviceGuess

/-! ## String primitives with JavaScript semantics -/

/-- ASCII lower-casing of a string, character by character. -/
def lowerStr (s : String) : String := ⟨s.data.map Char.toLower⟩

/-- Does the pattern `p` start the list `t` (exact characters)? -/
def listStarts : List Char → List Char → Bool
  | [], _ => true
  | _ :: _, [] => false
  | p :: ps, c :: cs => p == c && listStarts ps cs

/-- Does the pattern `p` occur as a contiguous run inside `t`? -/
def listOccurs (p : List Char) : List Char → Bool
  | [] => p.isEmpty
  | c :: cs => listStarts p (c :: cs) || listOccurs p cs

/-- JavaScript `t.includes(sub)`: `sub` occurs inside `t`. -/
def strOccurs (t sub : String) : Bool := listOccurs sub.data t.data

/-- JavaScript `String.prototype.trim`. -/
def jsTrim (s : String) : String :=
  ⟨((s.data.dropWhile Char.isWhitespace).reverse.dropWhile Char.isWhitespace).reverse⟩

/-- JavaScript truthiness of a nullable string: present and non-empty. -/
def strTruthy : Option String → Bool
  | none => false
  | some s => !s.data.isEmpty

/-- JavaScript truthiness of a nullable number (here a natural): present and non-zero. -/
def natTruthy : Option Nat → Bool
  | none => false
  | some n => n != 0

/-- JavaScript truthiness of a nullable rational: present and non-zero. -/
def ratTruthy : Option ℚ → Bool
  | none => false
  | some q => q.num != 0

/-- Split a character list at whitespace; empty pieces are kept (they are
filtered away by every caller, matching the `/\s+/` split of the source). -/
def splitWsChars : List Char → List Char → List (List Char)
  | [], acc => [acc.reverse]
  | c :: cs, acc =>
    if c.isWhitespace then acc.reverse :: splitWsChars cs []
    else splitWsChars cs (c :: acc)

/-- Whitespace tokens of a string. -/
def wsTokens (s : String) : List String :=
  (splitWsChars s.data []).map (fun l => (⟨l⟩ : String))

/-- Numeric value of a run of decimal digits (JavaScript `parseInt` on the digit group). -/
def digitsToNat (ds : List Char) : Nat :=
  ds.foldl (fun n c => 10 * n + (c.toNat - 48)) 0

/-- JavaScript `Math.round` on a rational: the nearest integer, ties rounding
up, i.e. the floor of `q + 1/2`, computed on numerator and denominator. -/
def jsRound (q : ℚ) : ℤ := Int.fdiv (2 * q.num + (q.den : ℤ)) (2 * (q.den : ℤ))

/-! ## Reference corpus (`utils/gsmaDatabase.js`) -/

/-- One row of the `devices` table. Only the columns consulted by the
resolution engine are modelled; the remaining imported columns (tac, bands,
lte, 5g, simslot, ...) are never read by the matching logic. -/
structure DeviceRecord where
  standardised_full_name : String
  standardised_manufacturer : String
  euicc : String
deriving DecidableEq

/-- State of the embedded lookup store at call time.  `unavailable` is a
missing/empty database file (initialisation fails, the `db` handle stays
null), `failing` is a store that throws on every query (the source wraps
each query in try/catch and returns null), `loaded rows` is a working
corpus holding `rows` in rowid order. -/
inductive CorpusState where
  | unavailable : CorpusState
  | failing : CorpusState
  | loaded : List DeviceRecord → CorpusState

/-- Exact stage of `searchDevice`: first row whose lower-cased full name
equals the lower-cased term (`WHERE LOWER(name) = LOWER(?) LIMIT 1`). -/
def exactStage (rows : List DeviceRecord) (t : String) : Option DeviceRecord :=
  rows.find? (fun r => lowerStr r.standardised_full_name == lowerStr t)

/-- Substring stage of `searchDevice`: first row whose lower-cased full name
contains the lower-cased term (`LIKE '%t%' LIMIT 1`). -/
def likeStage (rows : List DeviceRecord) (t : String) : Option DeviceRecord :=
  rows.find? (fun r => strOccurs (lowerStr r.standardised_full_name) (lowerStr t))

/-- Token stage of `searchDevice`: split the term at whitespace, keep the
tokens longer than two characters, and return the first substring hit. -/
def tokenStage (rows : List DeviceRecord) (t : String) : Option DeviceRecord :=
  ((wsTokens t).filter (fun w => w.data.length > 2)).findSome? (fun w => likeStage rows w)

/-- Embedding of `searchDevice` from `utils/gsmaDatabase.js`: null-guard the store and the
term, trim the term, then exact match, substring match, and (for terms
longer than three characters) the tokenized fallback. -/
def searchDevice (c : CorpusState) (searchTerm : Option String) : Option DeviceRecord :=
  match c with
  | .unavailable => none
  | .failing => none
  | .loaded rows =>
    match searchTerm with
    | none => none
    | some t =>
      if t.data.isEmpty || (jsTrim t).data.isEmpty then none
      else
        let cleanTerm := jsTrim t
        match exactStage rows cleanTerm with
        | some r => some r
        | none =>
          match likeStage rows cleanTerm with
          | some r => some r
          | none =>
            if cleanTerm.data.length > 3 then tokenStage rows cleanTerm else none

/-- Parameters of `advancedDeviceMatch` (geometry and GPU are accepted but,
as the source comments state, not yet used for narrowing). -/
structure AdvancedParams where
  brand : Option String
  model : Option String
  screenWidth : Option Nat
  screenHeight : Option Nat
  gpuRenderer : Option String

/-- Embedding of `advancedDeviceMatch` from `utils/gsmaDatabase.js`: up to 20 substring
candidates for "brand model", else for the model alone, returning the first
candidate; null when the store is unavailable or throws. -/
def advancedDeviceMatch (c : CorpusState) (params : AdvancedParams) : Option DeviceRecord :=
  match c with
  | .unavailable => none
  | .failing => none
  | .loaded rows =>
    let cand1 : List DeviceRecord :=
      match params.brand, params.model with
      | some b, some m =>
        if !b.data.isEmpty && !m.data.isEmpty then
          (rows.filter (fun r =>
            strOccurs (lowerStr r.standardised_full_name)
              (lowerStr (jsTrim (b ++ " " ++ m))))).take 20
        else []
      | _, _ => []
    let cand2 : List DeviceRecord :=
      if cand1.isEmpty then
        match params.model with
        | some m =>
          if !m.data.isEmpty then
            (rows.filter (fun r =>
              strOccurs (lowerStr r.standardised_full_name) (lowerStr m))).take 20
          else []
        | none => []
      else cand1
    cand2.head?

/-- Embedding of `searchDevices` from `utils/gsmaDatabase.js` (diagnostic multi-search):
up to `limit` substring hits, the empty list when the store is unavailable,
throws, or the term is blank. -/
def searchDevices (c : CorpusState) (searchTerm : Option String) (limit : Nat) :
    List DeviceRecord :=
  match c with
  | .unavailable => []
  | .failing => []
  | .loaded rows =>
    match searchTerm with
    | none => []
    | some t =>
      if t.data.isEmpty || (jsTrim t).data.isEmpty then []
      else
        (rows.filter (fun r =>
          strOccurs (lowerStr r.standardised_full_name) (lowerStr (jsTrim t)))).take limit

/-! ## Hardcoded fallback corpus (`TOP_ESIM_DEVICES` in the server module) -/

/-- The static fallback list used when the database is unavailable:
(name, manufacturer, euicc) triples in insertion order. -/
def TOP_ESIM_DEVICES : List (String × String × Bool) :=
  [("iPhone 12", "Apple", true),
   ("iPhone 13", "Apple", true),
   ("iPhone 14", "Apple", true),
   ("iPhone 15", "Apple", true),
   ("iPhone 16", "Apple", true),
   ("iPhone XS", "Apple", true),
   ("iPhone XR", "Apple", true),
   ("iPhone 11", "Apple", true),
   ("Motorola Edge 50", "Motorola", true),
   ("Moto G84", "Motorola", true),
   ("Google Pixel 7", "Google", true),
   ("Google Pixel 7a", "Google", true),
   ("Google Pixel 8", "Google", true),
   ("Samsung Galaxy S23", "Samsung", true),
   ("Samsung Galaxy S24", "Samsung", true),
   ("Samsung Galaxy S25", "Samsung", true),
   ("OnePlus 11", "OnePlus", true),
   ("OnePlus 12", "OnePlus", true)]

/-- Record synthesized from a fallback-list entry (the source builds an
object with these three fields, euicc as the string "true"/"false"). -/
def mkFallbackRecord (e : String × String × Bool) : DeviceRecord :=
  { standardised_full_name := e.1,
    standardised_manufacturer := e.2.1,
    euicc := if e.2.2 then "true" else "false" }

/-- Embedding of `searchGSMADeviceFallback` from the server module: exact lower-cased match
over the static list, then a bidirectional partial match. -/
def searchGSMADeviceFallback (searchTerm : String) : Option DeviceRecord :=
  if searchTerm.data.isEmpty then none
  else
    let normalized := lowerStr (jsTrim searchTerm)
    match TOP_ESIM_DEVICES.find? (fun e => normalized == lowerStr e.1) with
    | some e => some (mkFallbackRecord e)
    | none =>
      (TOP_ESIM_DEVICES.find? (fun e =>
        strOccurs normalized (lowerStr e.1) || strOccurs (lowerStr e.1) normalized)).map
        mkFallbackRecord

/-! ## Fingerprint resolvers (server module) -/

/-- A candidate set produced by a fingerprint resolver. -/
structure Fingerprint where
  models : List String
  isUnique : Bool
  displayName : String
deriving DecidableEq

/-- One bucket of the iPhone resolution mapping. -/
structure IphoneEntry where
  width : Nat
  height : Nat
  pxr : Int
  models : List String

/-- The six geometry buckets of `identifyiPhoneModel`. -/
def iphoneMap : List IphoneEntry :=
  [⟨390, 844, 3, ["iPhone 12", "iPhone 13", "iPhone 13 Pro", "iPhone 14"]⟩,
   ⟨428, 926, 3, ["iPhone 12 Pro Max", "iPhone 13 Pro Max", "iPhone 14 Plus"]⟩,
   ⟨393, 852, 3, ["iPhone 14 Pro", "iPhone 15", "iPhone 15 Pro", "iPhone 16"]⟩,
   ⟨430, 932, 3, ["iPhone 14 Pro Max", "iPhone 15 Plus", "iPhone 15 Pro Max", "iPhone 16 Plus"]⟩,
   ⟨375, 812, 3, ["iPhone X", "iPhone XS", "iPhone 11 Pro"]⟩,
   ⟨414, 896, 3, ["iPhone XR", "iPhone 11", "iPhone XS Max", "iPhone 11 Pro Max"]⟩]

/-- One entry of the Android GPU fingerprinting table. -/
structure AndroidEntry where
  gpu : String
  width : Nat
  height : Option Nat
  displayName : String
  models : List String

/-- The Android GPU fingerprinting table of `identifyAndroidByGPU`. -/
def androidFingerprints : List AndroidEntry :=
  [⟨"adreno (tm) 710", 432, some 984, "Motorola Edge 50 / Moto G84 Series",
    ["Motorola Edge 50", "Moto G84", "Moto G84 5G"]⟩,
   ⟨"mali-g710", 412, some 915, "Google Pixel 7 / 7a Series",
    ["Google Pixel 7", "Google Pixel 7a", "Google Pixel 7 Pro"]⟩,
   ⟨"adreno (tm) 740", 360, some 780, "Samsung Galaxy S23 / S24 Series",
    ["Samsung Galaxy S23", "Samsung Galaxy S24", "Samsung Galaxy S23 Ultra"]⟩,
   ⟨"adreno (tm) 740", 412, some 915, "OnePlus 11 / 12 Series",
    ["OnePlus 11", "OnePlus 12", "OnePlus 11 Pro"]⟩]

/-- Embedding of `refineiPhoneModel` from the server module: the documented placeholder
returns null on every path (Apple reuses GPUs across generations). -/
def refineiPhoneModel (_gpuRenderer : Option String) (_hardwareConcurrency : Option Nat)
    (_possibleModels : List String) : Option String := none

/-- Case-sensitive occurrence of `/iPhone\s*(\d+)/` at the head of `t`:
returns the numeric group value. -/
def numMatchAt (t : List Char) : Option Nat :=
  if listStarts "iPhone".data t then
    let r := (t.drop 6).dropWhile Char.isWhitespace
    let ds := r.takeWhile Char.isDigit
    if ds.isEmpty then none else some (digitsToNat ds)
  else none

/-- Leftmost occurrence of `/iPhone\s*(\d+)/` in a character list. -/
def scanNumMatch : List Char → Option Nat
  | [] => none
  | c :: cs =>
    match numMatchAt (c :: cs) with
    | some n => some n
    | none => scanNumMatch cs

/-- Generation number extracted from one candidate model name
(`m.match(/iPhone\s*(\d+)/)` followed by `parseInt` on the group). -/
def extractGenNum (m : String) : Option Nat := scanNumMatch m.data

/-- All generation numbers extracted from a candidate list. -/
def genNums (models : List String) : List Nat :=
  (models.map extractGenNum).filterMap id

/-- Case-insensitive prefix test; the pattern is given in lowercase. -/
def ciStarts : List Char → List Char → Bool
  | [], _ => true
  | _ :: _, [] => false
  | p :: ps, c :: cs => p == c.toLower && ciStarts ps cs

/-- The optional variant group `(Pro|Max|Plus|Mini)?` tried at the head of
`t`, alternatives in source order, match returned with original casing. -/
def variantAt (t : List Char) : Option String :=
  if ciStarts "pro".data t then some ⟨t.take 3⟩
  else if ciStarts "max".data t then some ⟨t.take 3⟩
  else if ciStarts "plus".data t then some ⟨t.take 4⟩
  else if ciStarts "mini".data t then some ⟨t.take 4⟩
  else none

/-- Occurrence of `/iPhone\s*\d+\s*(Pro|Max|Plus|Mini)?/i` at the head of
`t`: `some g` when the mandatory part matches, `g` being the optional group. -/
def varMatchAt (t : List Char) : Option (Option String) :=
  if ciStarts "iphone".data t then
    let r := (t.drop 6).dropWhile Char.isWhitespace
    let ds := r.takeWhile Char.isDigit
    if ds.isEmpty then none
    else some (variantAt ((r.drop ds.length).dropWhile Char.isWhitespace))
  else none

/-- Leftmost occurrence of the variant regex in a character list. -/
def scanVarMatch : List Char → Option (Option String)
  | [] => none
  | c :: cs =>
    match varMatchAt (c :: cs) with
    | some v => some v
    | none => scanVarMatch cs

/-- Variant tag extracted from one candidate model name (null when either
the regex fails or its optional group is absent). -/
def extractVariant (m : String) : Option String :=
  match scanVarMatch m.data with
  | some v => v
  | none => none

/-- Order-preserving de-duplication (`[...new Set(xs)]`). -/
def dedupSeen : List String → List String → List String
  | [], _ => []
  | a :: l, seen =>
    if seen.contains a then dedupSeen l seen else a :: dedupSeen l (a :: seen)

/-- De-duplicate a string list keeping first occurrences. -/
def dedupStr (l : List String) : List String := dedupSeen l []

/-- Ascending sort (`numbers.sort((a, b) => a - b)`). -/
def sortNums (l : List Nat) : List Nat := List.insertionSort (· ≤ ·) l

/-- Common prefix "iPhone min / max" of the multi-generation labels. -/
def seriesCore (mn mx : Nat) : String :=
  "iPhone " ++ toString mn ++ " / " ++ toString mx

/-- Display label synthesized for a non-unique candidate set (the
`else` branch of the display-name construction in `identifyiPhoneModel`). -/
def buildSeriesDisplayName (possibleModels : List String) : String :=
  let numbers := sortNums (genNums possibleModels)
  let variants := dedupStr ((possibleModels.map extractVariant).filterMap id)
  match numbers with
  | [] => String.intercalate " / " possibleModels ++ " Series"
  | n0 :: rest =>
    let minNum := n0
    let maxNum := (n0 :: rest).getLast (List.cons_ne_nil n0 rest)
    if minNum == maxNum then
      if !variants.isEmpty then
        "iPhone " ++ toString minNum ++ " " ++ String.intercalate " & " variants ++ " Series"
      else
        "iPhone " ++ toString minNum ++ " Series"
    else
      let uniqueVariants := dedupStr (variants.filter (fun v => !v.data.isEmpty))
      match uniqueVariants with
      | [v] => seriesCore minNum maxNum ++ " " ++ v ++ " Series"
      | _ :: _ :: _ =>
        seriesCore minNum maxNum ++ " " ++ String.intercalate " & " uniqueVariants ++ " Series"
      | [] => seriesCore minNum maxNum ++ " Series"

/-- Embedding of `identifyiPhoneModel` from the server module: exact lookup of the
(width, height, rounded ratio) triple in the six buckets, with the
always-inconclusive GPU refinement and the display-name synthesis. -/
def identifyiPhoneModel (screenWidth screenHeight : Option Nat) (dpr : Option ℚ)
    (gpuRenderer : Option String) (hardwareConcurrency : Option Nat) : Option Fingerprint :=
  match screenWidth, screenHeight, dpr with
  | some w, some h, some r =>
    if w == 0 || h == 0 || r.num == 0 then none
    else
      match iphoneMap.find? (fun e => w == e.width && h == e.height && jsRound r == e.pxr) with
      | none => none
      | some entry =>
        let possibleModels := entry.models
        let isUnique := possibleModels.length == 1
        let refinedModel : Option String :=
          if !isUnique && (strTruthy gpuRenderer || natTruthy hardwareConcurrency) then
            refineiPhoneModel gpuRenderer hardwareConcurrency possibleModels
          else none
        let displayName :=
          match refinedModel with
          | some rm => rm
          | none =>
            if isUnique then possibleModels.headD ""
            else buildSeriesDisplayName possibleModels
        some { models := possibleModels,
               isUnique := isUnique || refinedModel.isSome,
               displayName := displayName }
  | _, _, _ => none

/-- Embedding of `identifyAndroidByGPU` from the server module: normalize the renderer
string, then first table entry whose gpu-substring occurs in it with the
width (and the height, for entries that specify one) within two pixels. -/
def identifyAndroidByGPU (gpuRenderer : Option String) (screenWidth screenHeight : Option Nat) :
    Option Fingerprint :=
  match gpuRenderer, screenWidth with
  | some g, some w =>
    if g.data.isEmpty || w == 0 then none
    else
      let normalizedGPU := lowerStr (jsTrim g)
      match androidFingerprints.find? (fun e =>
          strOccurs normalizedGPU (lowerStr e.gpu)
          && decide (Int.natAbs ((w : ℤ) - (e.width : ℤ)) ≤ 2)
          && (match e.height, screenHeight with
              | none, _ => true
              | some eh, some h => decide (Int.natAbs ((h : ℤ) - (eh : ℤ)) ≤ 2)
              | some _, none => false)) with
      | some e =>
        some { models := e.models, isUnique := e.models.length == 1,
               displayName := e.displayName }
      | none => none
  | _, _ => none

/-! ## eSIM fallback rule (`isiPhoneESIMCompatible`) -/

/-- Occurrence of `/iPhone\s*(?:XS|XR|X\s*S|X\s*R|(\d+))/i` at the head of
`t`: the full matched text (original casing) and the numeric group. -/
def esimMatchAt (t : List Char) : Option (List Char × Option Nat) :=
  if ciStarts "iphone".data t then
    let pre := t.take 6
    let rest := t.drop 6
    let ws := rest.takeWhile Char.isWhitespace
    let r2 := rest.dropWhile Char.isWhitespace
    match r2 with
    | [] => none
    | c :: tl =>
      if c.toLower == 'x' then
        match tl with
        | d :: _ =>
          if d.toLower == 's' || d.toLower == 'r' then some (pre ++ ws ++ [c, d], none)
          else
            let ws2 := tl.takeWhile Char.isWhitespace
            let r3 := tl.dropWhile Char.isWhitespace
            match r3 with
            | e :: _ =>
              if e.toLower == 's' || e.toLower == 'r' then
                some (pre ++ ws ++ c :: (ws2 ++ [e]), none)
              else none
            | [] => none
        | [] => none
      else if c.isDigit then
        let ds := (c :: tl).takeWhile Char.isDigit
        some (pre ++ ws ++ ds, some (digitsToNat ds))
      else none
  else none

/-- Leftmost occurrence of the eSIM-rule regex in a character list. -/
def scanEsimMatch : List Char → Option (List Char × Option Nat)
  | [] => none
  | c :: cs =>
    match esimMatchAt (c :: cs) with
    | some m => some m
    | none => scanEsimMatch cs

/-- One loop iteration of `isiPhoneESIMCompatible` for a single model:
`some false` is the `return false` of the "iPhone X alone" branch, `none`
is every `continue` (including the numeric branches, which only continue). -/
def esimModelCheck (model : String) : Option Bool :=
  if model.data.isEmpty then none
  else if !strOccurs (lowerStr model) "iphone" then none
  else
    match scanEsimMatch model.data with
    | none => none
    | some (m0, _g1) =>
      let low := lowerStr ⟨m0⟩
      if strOccurs low "xs" || strOccurs low "xr" then none
      else if strOccurs low "iphone x" then some false
      else none

/-- Embedding of `isiPhoneESIMCompatible` from the server module on a candidate list:
walk the models, return false on the first "iPhone X alone" hit, and
default to true after the loop. -/
def isiPhoneESIMCompatible : List String → Bool
  | [] => true
  | m :: rest =>
    match esimModelCheck m with
    | some b => b
    | none => isiPhoneESIMCompatible rest

/-! ## Resolution orchestrator (the `/log/:id` handler of the server module) -/

/-- The signal snapshot consumed by one resolution call. `dpr` is the
`pixelRatio` field of the source. -/
structure SignalSet where
  deviceBrand : Option String
  deviceModel : Option String
  screenWidth : Option Nat
  screenHeight : Option Nat
  dpr : Option ℚ
  gpuRenderer : Option String
  gpuVendor : Option String
  hardwareConcurrency : Option Nat
  clientHintsModel : Option String
  clientHintsBrand : Option String

/-- The mutable locals of the handler (`gsmaData`, `matchConfidence`,
`deducedModel`, `eSIMFallback`, the two fingerprints, `gsmaMatches`). -/
structure ResState where
  gsmaData : Option DeviceRecord
  matchConfidence : Nat
  deducedModel : Option String
  eSIMFallback : Option Bool
  androidFingerprint : Option Fingerprint
  iphoneFingerprint : Option Fingerprint
  gsmaMatches : List DeviceRecord

/-- Initial values of the handler locals. -/
def initState : ResState :=
  { gsmaData := none, matchConfidence := 0, deducedModel := none,
    eSIMFallback := none, androidFingerprint := none, iphoneFingerprint := none,
    gsmaMatches := [] }

/-- Boolean reading of the euicc column (`m.euicc === 'true' || m.euicc === true`). -/
def euB (r : DeviceRecord) : Bool := r.euicc == "true"

/-- The Android fingerprinting block: fires when brand or model is falsy or
the model is the masking sentinel "K", with a GPU string and width present;
probes the corpus with each candidate, stopping at the first hit. -/
def androidBlock (c : CorpusState) (s : SignalSet) (st : ResState) : ResState :=
  if (!strTruthy s.deviceBrand || !strTruthy s.deviceModel || s.deviceModel == some "K")
      && strTruthy s.gpuRenderer && natTruthy s.screenWidth then
    match identifyAndroidByGPU s.gpuRenderer s.screenWidth s.screenHeight with
    | some fp =>
      let st1 := { st with androidFingerprint := some fp, deducedModel := some fp.displayName }
      match fp.models.findSome? (fun m => searchDevice c (some m)) with
      | some r =>
        { st1 with gsmaData := some r,
                   matchConfidence := if fp.isUnique then 100 else 50 }
      | none => { st1 with matchConfidence := 50 }
    | none => st
  else st

/-- Firing condition of the iPhone block: brand mentions "apple" or model
mentions "iphone" (JavaScript `&&`/`||` on possibly-null strings). -/
def appleCond (s : SignalSet) : Bool :=
  (match s.deviceBrand with
   | some b => !b.data.isEmpty && strOccurs (lowerStr b) "apple"
   | none => false)
  || (match s.deviceModel with
      | some m => !m.data.isEmpty && strOccurs (lowerStr m) "iphone"
      | none => false)

/-- Per-candidate corpus probe of the iPhone block: database search, then
the hardcoded fallback list. -/
def iphoneProbe (c : CorpusState) (m : String) : Option DeviceRecord :=
  match searchDevice c (some m) with
  | some r => some r
  | none => searchGSMADeviceFallback m

/-- The iPhone fingerprinting block: geometry lookup, one probe per
candidate model collecting every hit, agreement analysis of the euicc
flags, and the fallback-rule computation for partially matched sets. -/
def iphoneBlock (c : CorpusState) (s : SignalSet) (st : ResState) : ResState :=
  if st.androidFingerprint.isNone && appleCond s then
    match identifyiPhoneModel s.screenWidth s.screenHeight s.dpr
        s.gpuRenderer s.hardwareConcurrency with
    | some fp =>
      let st1 := { st with iphoneFingerprint := some fp, deducedModel := some fp.displayName }
      match fp.models.filterMap (fun m => iphoneProbe c m) with
      | [] =>
        { st1 with eSIMFallback := some (isiPhoneESIMCompatible fp.models),
                   matchConfidence := 50 }
      | h0 :: hrest =>
        let hits := h0 :: hrest
        let allAgree := (hits.map euB).all (fun v => v == euB h0)
        let fb :=
          if allAgree && hits.length == fp.models.length then st.eSIMFallback
          else if hits.length < fp.models.length then
            some (isiPhoneESIMCompatible fp.models)
          else st.eSIMFallback
        { st1 with gsmaData := some h0, gsmaMatches := hits, eSIMFallback := fb,
                   matchConfidence := if fp.isUnique then 100 else 50 }
    | none => st
  else st

/-- The client-hints step (step A of the handler): fires only when nothing
matched yet and neither fingerprint block fired; brand+model search at
confidence 90, model-only retry at 85, each with the fallback list. -/
def clientHintsBlock (c : CorpusState) (s : SignalSet) (st : ResState) : ResState :=
  if st.gsmaData.isNone && st.androidFingerprint.isNone && st.iphoneFingerprint.isNone
      && strTruthy s.clientHintsModel then
    match s.clientHintsModel with
    | some chm =>
      let term :=
        match s.clientHintsBrand with
        | some chb => if !chb.data.isEmpty then chb ++ " " ++ chm else chm
        | none => chm
      let g1 :=
        match searchDevice c (some term) with
        | some r => some r
        | none => searchGSMADeviceFallback term
      match g1 with
      | some r =>
        { st with gsmaData := some r, deducedModel := some r.standardised_full_name,
                  matchConfidence := 90 }
      | none =>
        let g2 :=
          match searchDevice c (some chm) with
          | some r => some r
          | none => searchGSMADeviceFallback chm
        match g2 with
        | some r =>
          { st with gsmaData := some r, deducedModel := some r.standardised_full_name,
                    matchConfidence := 85 }
        | none => st
    | none => st
  else st

/-- The advanced-match step (step C of the handler): confidence 85 on hit. -/
def advancedBlock (c : CorpusState) (s : SignalSet) (st : ResState) : ResState :=
  if st.gsmaData.isNone && st.androidFingerprint.isNone && st.iphoneFingerprint.isNone
      && (strTruthy s.deviceBrand || strTruthy s.deviceModel) then
    match advancedDeviceMatch c
        ⟨s.deviceBrand, s.deviceModel, s.screenWidth, s.screenHeight, s.gpuRenderer⟩ with
    | some r => { st with gsmaData := some r, matchConfidence := 85 }
    | none => st
  else st

/-- The simple-search step: brand+model term, else model, else brand, at
confidence 70; model-only retry at confidence 50. -/
def simpleBlock (c : CorpusState) (s : SignalSet) (st : ResState) : ResState :=
  if st.gsmaData.isNone then
    let searchTerm : Option String :=
      if strTruthy s.deviceBrand && strTruthy s.deviceModel then
        some (jsTrim ((s.deviceBrand.getD "") ++ " " ++ (s.deviceModel.getD "")))
      else if strTruthy s.deviceModel then s.deviceModel
      else if strTruthy s.deviceBrand then s.deviceBrand
      else none
    match searchTerm with
    | none => st
    | some t =>
      match searchDevice c (some t) with
      | some r => { st with gsmaData := some r, matchConfidence := 70 }
      | none =>
        if strTruthy s.deviceModel then
          match searchDevice c s.deviceModel with
          | some r => { st with gsmaData := some r, matchConfidence := 50 }
          | none => st
        else st
  else st

/-- The full result record written to the scan entry. -/
structure ResolveOutcome where
  gsmaData : Option DeviceRecord
  matchConfidence : Nat
  deducedModel : Option String
  eSIMFallback : Option Bool
  androidFingerprint : Option Fingerprint
  iphoneFingerprint : Option Fingerprint
  gsmaMatches : List DeviceRecord
  finalESIMStatus : Option Bool
  eSIMCompatible : Option Bool
  isResolutionBased : Bool

/-- The final eSIM determination of the handler: agreement of the collected
iPhone hits, then the stored fallback value, then the primary match. -/
def finalStatus (st : ResState) : Option Bool :=
  match st.iphoneFingerprint, st.gsmaMatches with
  | some fp, h0 :: hrest =>
    let hits := h0 :: hrest
    let allAgree := (hits.map euB).all (fun v => v == euB h0)
    if allAgree && hits.length == fp.models.length then some (euB h0)
    else if allAgree then some (euB h0)
    else
      match st.eSIMFallback with
      | some b => some b
      | none =>
        match st.gsmaData with
        | some r => some (euB r)
        | none => none
  | _, _ =>
    match st.gsmaData with
    | some r => some (euB r)
    | none => st.eSIMFallback

/-- Assembly of the scan record fields from the handler locals. -/
def finalizeOutcome (st : ResState) : ResolveOutcome :=
  let fes := finalStatus st
  { gsmaData := st.gsmaData,
    matchConfidence := st.matchConfidence,
    deducedModel := st.deducedModel,
    eSIMFallback := st.eSIMFallback,
    androidFingerprint := st.androidFingerprint,
    iphoneFingerprint := st.iphoneFingerprint,
    gsmaMatches := st.gsmaMatches,
    finalESIMStatus := fes,
    eSIMCompatible :=
      match fes with
      | some b => some b
      | none =>
        match st.gsmaData with
        | some r => some (euB r)
        | none => none,
    isResolutionBased :=
      match st.iphoneFingerprint with
      | some fp => !fp.isUnique
      | none => false }

/-- One resolution call: the handler blocks in their source order
(Android fingerprint, iPhone fingerprint, client hints, advanced match,
simple search), then the final eSIM determination. -/
def resolveDevice (c : CorpusState) (s : SignalSet) : ResolveOutcome :=
  finalizeOutcome
    (simpleBlock c s
      (advancedBlock c s
        (clientHintsBlock c s
          (iphoneBlock c s
            (androidBlock c s initState)))))

/-! ## Concrete signal snapshots used by the claim theorems -/

/-- Apple-branded device at the 390x844@3 geometry with a high-entropy
client-hint model present: both the Client-Hints Tier condition and the
Apple Fingerprint Tier condition hold. -/
def sigC1 : SignalSet :=
  { deviceBrand := some "Apple", deviceModel := some "iPhone",
    screenWidth := some 390, screenHeight := some 844, dpr := some 3,
    gpuRenderer := none, gpuVendor := none, hardwareConcurrency := none,
    clientHintsModel := some "Pixel 7", clientHintsBrand := some "Google" }

/-- A corpus in which all four 390x844@3 candidates match but the euicc
flags disagree (the iPhone 12 row carries "false"). -/
def rowsC2 : List DeviceRecord :=
  [⟨"iPhone 12", "Apple", "false"⟩, ⟨"iPhone 13", "Apple", "true"⟩,
   ⟨"iPhone 13 Pro", "Apple", "true"⟩, ⟨"iPhone 14", "Apple", "true"⟩]

/-- Apple-branded device with a masked model at the 390x844@3 geometry. -/
def sigC2 : SignalSet :=
  { deviceBrand := some "Apple", deviceModel := none,
    screenWidth := some 390, screenHeight := some 844, dpr := some 3,
    gpuRenderer := none, gpuVendor := none, hardwareConcurrency := none,
    clientHintsModel := none, clientHintsBrand := none }

/-- Masked device with the Adreno 710 renderer, width 432 and height 984. -/
def sigC4 : SignalSet :=
  { deviceBrand := none, deviceModel := none,
    screenWidth := some 432, screenHeight := some 984, dpr := none,
    gpuRenderer := some "Adreno (TM) 710", gpuVendor := none, hardwareConcurrency := none,
    clientHintsModel := none, clientHintsBrand := none }

/-- The input of the claimed Android end-to-end example: renderer and width
only, no screen height. -/
def sigC5 : SignalSet :=
  { deviceBrand := none, deviceModel := none,
    screenWidth := some 432, screenHeight := none, dpr := none,
    gpuRenderer := some "Adreno (TM) 710", gpuVendor := none, hardwareConcurrency := none,
    clientHintsModel := none, clientHintsBrand := none }

/-! ## Claim C1 -/

/-- Claim C1: the claim says that whenever a high-entropy client-hint model
is present and the Apple geometry table matches, the Client-Hints Tier wins
(confidence 90 or 85) over the Apple Fingerprint Tier.  Evaluating the
cascade at such an input shows the opposite: the iPhone fingerprint block
runs first and the client-hints step is skipped, leaving confidence 50 and
the fingerprint series label, never 90 or 85. -/
theorem claim1_apple_tier_wins_eval :
    (resolveDevice (.loaded []) sigC1).matchConfidence = 50 ∧
    (resolveDevice (.loaded []) sigC1).deducedModel = some "iPhone 12 / 14 Pro Series" ∧
    (resolveDevice (.loaded []) sigC1).iphoneFingerprint.isSome = true := by
  exact ⟨rfl, rfl, rfl⟩

/-! ## Claim C2 -/

/-- Claim C2: the claim says that when every candidate matched the corpus
and the hits disagree on the eSIM flag, the verdict falls through to the
rule-based heuristic (true for the 12/13/13 Pro/14 set).  Evaluating the
cascade on a corpus where all four candidates match with disagreeing flags
shows the verdict is the first hit's flag (false), not the rule's result
(true): the fallback value is never computed in the all-matched case. -/
theorem claim2_disagreeing_hits_eval :
    (resolveDevice (.loaded rowsC2) sigC2).gsmaMatches.map euB = [false, true, true, true] ∧
    (resolveDevice (.loaded rowsC2) sigC2).eSIMFallback = none ∧
    (resolveDevice (.loaded rowsC2) sigC2).finalESIMStatus = some false ∧
    isiPhoneESIMCompatible ["iPhone 12", "iPhone 13", "iPhone 13 Pro", "iPhone 14"] = true := by
  exact ⟨rfl, rfl, rfl, rfl⟩

/-! ## Claim C3 -/

/-- Claim C3: the claim says the rule evaluates "iPhone X" to false and the
set containing "iPhone X" and "iPhone XS" to false (AND semantics), while
"iPhone XS" and "iPhone 11" evaluate to true.  The code agrees on the two
true cases but returns true for both "iPhone X" cases as well: the regex
`iPhone(?:XS|XR|X\s*S|X\s*R|\d+)` never matches the bare string
"iPhone X", so the loop skips it and falls through to the default true. -/
theorem claim3_esim_rule_eval :
    isiPhoneESIMCompatible ["iPhone X"] = true ∧
    isiPhoneESIMCompatible ["iPhone X", "iPhone XS"] = true ∧
    isiPhoneESIMCompatible ["iPhone XS"] = true ∧
    isiPhoneESIMCompatible ["iPhone 11"] = true := by
  exact ⟨rfl, rfl, rfl, rfl⟩

/-! ## Claim C8 -/

/-- A findSome? whose function never hits is none. -/
theorem findSome?_of_none {α β : Type} (l : List α) (f : α → Option β)
    (h : ∀ a, f a = none) : l.findSome? f = none := by
  induction l with
  | nil => rfl
  | cons a t ih => simp [List.findSome?_cons, h a, ih]

/-- Claim C8: when the corpus is unavailable, empty, or the store throws,
every matcher function (single search, advanced match, multi-search)
returns "no match" (none or the empty list) instead of failing. -/
theorem claim8_matchers_degrade :
    ∀ (term : Option String) (p : AdvancedParams) (limit : Nat),
      searchDevice .unavailable term = none ∧
      searchDevice .failing term = none ∧
      searchDevice (.loaded []) term = none ∧
      advancedDeviceMatch .unavailable p = none ∧
      advancedDeviceMatch .failing p = none ∧
      advancedDeviceMatch (.loaded []) p = none ∧
      searchDevices .unavailable term limit = [] ∧
      searchDevices .failing term limit = [] ∧
      searchDevices (.loaded []) term limit = [] := by
  intro term p limit
  refine ⟨rfl, rfl, ?_, rfl, rfl, ?_, rfl, rfl, ?_⟩
  · cases term with
    | none => rfl
    | some t =>
      show (if t.data.isEmpty || (jsTrim t).data.isEmpty then none else _) = _
      split
      · rfl
      · show (if (jsTrim t).data.length > 3 then tokenStage [] (jsTrim t) else none) = none
        split
        · exact findSome?_of_none _ _ (fun w => rfl)
        · rfl
  · cases hb : p.brand <;> cases hm : p.model <;>
      simp [advancedDeviceMatch, hb, hm, List.filter_nil, List.take_nil, ite_self]
  · cases term with
    | none => rfl
    | some t =>
      show (if t.data.isEmpty || (jsTrim t).data.isEmpty then [] else _) = _
      split
      · rfl
      · simp [List.filter_nil, List.take_nil]

/-! ## Claim C6 -/

/-- Modelled from the claim wording of C6: round the pixel ratio to the
nearest integer, look the exact (width, height, ratio) triple up in the six
fixed buckets, return that bucket's candidate list with uniqueness iff the
list is a singleton, and none when no bucket matches or a required field is
missing. -/
def appleResolverSpec (screenWidth screenHeight : Option Nat) (dpr : Option ℚ) :
    Option (List String × Bool) :=
  match screenWidth, screenHeight, dpr with
  | some w, some h, some r =>
    (iphoneMap.find? (fun e => w == e.width && h == e.height && jsRound r == e.pxr)).map
      (fun e => (e.models, e.models.length == 1))
  | _, _, _ => none

/-- Claim C6: for every (screenWidth, screenHeight, pixelRatio) input, the
Apple Resolution Resolver rounds the pixel ratio to the nearest integer, does
an exact-triple lookup against the six geometry buckets, returns exactly the
matched bucket's candidate list with isUnique iff that list has one element,
and returns none when no bucket matches or a required field is missing
(projection of `identifyiPhoneModel` onto its candidate list and uniqueness
flag, compared with the resolver the claim describes). -/
theorem claim6_apple_resolver :
    ∀ (sw sh : Option Nat) (r? : Option ℚ) (gpu : Option String) (hc : Option Nat),
      (identifyiPhoneModel sw sh r? gpu hc).map (fun fp => (fp.models, fp.isUnique)) =
        appleResolverSpec sw sh r? := by
  intro sw sh r? gpu hc
  rcases sw with _ | w
  · rfl
  rcases sh with _ | h
  · rfl
  rcases r? with _ | r
  · rfl
  by_cases hz : (w == 0 || h == 0 || r.num == 0) = true
  · have hzero : identifyiPhoneModel (some w) (some h) (some r) gpu hc = none := by
      simp only [identifyiPhoneModel]
      rw [if_pos hz]
    rw [hzero]
    simp only [Option.map_none', appleResolverSpec]
    have hfind : iphoneMap.find?
        (fun e => w == e.width && h == e.height && jsRound r == e.pxr) = none := by
      rw [List.find?_eq_none]
      intro e he
      simp only [Bool.or_eq_true, beq_iff_eq] at hz
      rcases hz with (hw | hh) | hr
      · subst hw
        fin_cases he <;> simp
      · subst hh
        fin_cases he <;> simp
      · have : r = 0 := by
          have := Rat.num_eq_zero.mp hr
          exact this
        subst this
        have hround : jsRound 0 = 0 := rfl
        fin_cases he <;> simp [hround]
    rw [hfind]
    rfl
  · simp only [identifyiPhoneModel, appleResolverSpec]
    rw [if_neg hz]
    cases hf : iphoneMap.find?
        (fun e => w == e.width && h == e.height && jsRound r == e.pxr) with
    | none => rfl
    | some entry =>
      simp [refineiPhoneModel, ite_self]

/-! ## Claim C5 -/

/-- Claim C5, counterexample: on the claimed end-to-end input (renderer
"Adreno (TM) 710", screenWidth 432, no screen height) the Android resolver
returns none — the Motorola entry specifies an expected height, and a
missing height fails its tolerance check — so the Android Fingerprint Tier
does not fire and the cascade produces no display name at all. -/
theorem claim5_no_height_counterexample :
    identifyAndroidByGPU (some "Adreno (TM) 710") (some 432) none = none ∧
    (resolveDevice (.loaded []) sigC5).androidFingerprint = none ∧
    (resolveDevice (.loaded []) sigC5).deducedModel = none ∧
    (resolveDevice (.loaded []) sigC5).matchConfidence = 0 := by
  exact ⟨rfl, rfl, rfl, rfl⟩

/-- Modelled from the amended claim wording of C5: an entry is accepted when
the trimmed, case-folded renderer contains the entry's gpu-substring, the
width is within two pixels of the expected width and, whenever the entry
specifies an expected height, a height within two pixels is actually
present (a missing input height rejects such an entry). -/
def androidResolverSpec (gpuRenderer : Option String) (screenWidth screenHeight : Option Nat) :
    Option Fingerprint :=
  match gpuRenderer, screenWidth with
  | some g, some w =>
    (androidFingerprints.find? (fun e =>
        strOccurs (lowerStr (jsTrim g)) e.gpu
        && decide (Int.natAbs ((w : ℤ) - (e.width : ℤ)) ≤ 2)
        && (match e.height, screenHeight with
            | none, _ => true
            | some eh, some h => decide (Int.natAbs ((h : ℤ) - (eh : ℤ)) ≤ 2)
            | some _, none => false))).map
      (fun e => { models := e.models, isUnique := e.models.length == 1,
                  displayName := e.displayName })
  | _, _ => none

/-- A find? over two predicates agreeing on the list is the same. -/
theorem find?_congr_on {α : Type} {p q : α → Bool} (l : List α)
    (h : ∀ x ∈ l, p x = q x) : l.find? p = l.find? q := by
  induction l with
  | nil => rfl
  | cons a t ih =>
    simp only [List.find?]
    rw [h a (List.mem_cons_self a t)]
    cases q a
    · exact ih (fun x hx => h x (List.mem_cons_of_mem a hx))
    · rfl

/-- Claim C5 (amended): the Android GPU Resolver accepts a table entry when
the normalized renderer contains the entry's gpu-substring, the width is
within two pixels and — since every entry specifies an expected height — a
screen height within two pixels is present; on the end-to-end input the
tier therefore needs screenHeight 984, and then its display name mentions
both "Motorola Edge 50" and "Moto G84". -/
theorem claim5_android_resolver_amended :
    (∀ (gpu : Option String) (sw sh : Option Nat),
      identifyAndroidByGPU gpu sw sh = androidResolverSpec gpu sw sh) ∧
    (resolveDevice (.loaded []) sigC4).androidFingerprint.isSome = true ∧
    strOccurs ((resolveDevice (.loaded []) sigC4).deducedModel.getD "") "Motorola Edge 50" = true ∧
    strOccurs ((resolveDevice (.loaded []) sigC4).deducedModel.getD "") "Moto G84" = true := by
  refine ⟨?_, rfl, rfl, rfl⟩
  intro gpu sw sh
  rcases gpu with _ | g
  · rfl
  rcases sw with _ | w
  · rfl
  by_cases hz : (g.data.isEmpty || w == 0) = true
  · have hfind : androidFingerprints.find? (fun e =>
        strOccurs (lowerStr (jsTrim g)) e.gpu
        && decide (Int.natAbs ((w : ℤ) - (e.width : ℤ)) ≤ 2)
        && (match e.height, sh with
            | none, _ => true
            | some eh, some h => decide (Int.natAbs ((h : ℤ) - (eh : ℤ)) ≤ 2)
            | some _, none => false)) = none := by
      rw [List.find?_eq_none]
      intro e he
      simp only [Bool.or_eq_true, beq_iff_eq] at hz
      rcases hz with hg | hw
      · rcases g with ⟨gd⟩
        simp only [String.data] at hg
        rw [List.isEmpty_iff] at hg
        subst hg
        have hocc : ∀ sub : String, strOccurs (lowerStr (jsTrim ⟨[]⟩)) sub = sub.data.isEmpty := by
          intro sub
          rfl
        fin_cases he <;> simp [hocc]
      · subst hw
        have h1 : (decide (Int.natAbs ((0 : ℤ) - 432) ≤ 2)) = false := rfl
        have h2 : (decide (Int.natAbs ((0 : ℤ) - 412) ≤ 2)) = false := rfl
        have h3 : (decide (Int.natAbs ((0 : ℤ) - 360) ≤ 2)) = false := rfl
        fin_cases he <;>
            simp only [Nat.cast_zero, Nat.cast_ofNat, h1, h2, h3, Bool.and_false,
              Bool.false_and] <;>
          decide
    simp only [identifyAndroidByGPU, androidResolverSpec]
    rw [if_pos hz, hfind]
    rfl
  · simp only [identifyAndroidByGPU, androidResolverSpec]
    rw [if_neg hz]
    rw [find?_congr_on androidFingerprints (q := fun e =>
        strOccurs (lowerStr (jsTrim g)) e.gpu
        && decide (Int.natAbs ((w : ℤ) - (e.width : ℤ)) ≤ 2)
        && (match e.height, sh with
            | none, _ => true
            | some eh, some h => decide (Int.natAbs ((h : ℤ) - (eh : ℤ)) ≤ 2)
            | some _, none => false))
      (by intro x hx; fin_cases hx <;> rfl)]
    cases hf : androidFingerprints.find? (fun e =>
        strOccurs (lowerStr (jsTrim g)) e.gpu
        && decide (Int.natAbs ((w : ℤ) - (e.width : ℤ)) ≤ 2)
        && (match e.height, sh with
            | none, _ => true
            | some eh, some h => decide (Int.natAbs ((h : ℤ) - (eh : ℤ)) ≤ 2)
            | some _, none => false)) with
    | none => rfl
    | some e => rfl

/-! ## Claim C7 -/

/-- Modelled from the claim wording of C7, stage (a): exact case-insensitive
equality on the stored full name. -/
def specExactSearch (rows : List DeviceRecord) (term : String) : Option DeviceRecord :=
  rows.find? (fun r => lowerStr r.standardised_full_name == lowerStr term)

/-- Modelled from the claim wording of C7, stage (b): case-insensitive
substring containment of the term within stored names. -/
def specSubstrSearch (rows : List DeviceRecord) (term : String) : Option DeviceRecord :=
  rows.find? (fun r => strOccurs (lowerStr r.standardised_full_name) (lowerStr term))

/-- Modelled from the claim wording of C7, stage (c): split the term into
whitespace tokens longer than two characters and probe each token as a
substring query, returning the first hit. -/
def specTokenSearch (rows : List DeviceRecord) (term : String) : Option DeviceRecord :=
  ((wsTokens term).filter (fun w => w.data.length > 2)).findSome?
    (fun w => specSubstrSearch rows w)

/-- Claim C7: `searchDevice` performs the three-stage fallback in order —
exact case-insensitive equality, case-insensitive substring containment,
and (only when the term is longer than three characters) the tokenized
probe — returning none when every stage misses.  Stated for already-trimmed
non-empty terms, since the source trims the term before the stages. -/
theorem claim7_searchByName_stages (rows : List DeviceRecord) (term : String)
    (h1 : jsTrim term = term) (h2 : term ≠ "") :
    searchDevice (.loaded rows) (some term) =
      match specExactSearch rows term with
      | some r => some r
      | none =>
        match specSubstrSearch rows term with
        | some r => some r
        | none => if term.data.length > 3 then specTokenSearch rows term else none := by
  rcases term with ⟨l⟩
  cases l with
  | nil => exact absurd rfl h2
  | cons c cs =>
    show (if (String.mk (c :: cs)).data.isEmpty || (jsTrim ⟨c :: cs⟩).data.isEmpty
          then none else _) = _
    rw [h1]
    rfl

/-- Witness for claim C7 at the concrete example: "Pixel 7" misses the
exact stage and matches the stored "Google Pixel 7 Pro" through the
substring stage. -/
theorem claim7_searchByName_witness :
    searchDevice (.loaded [⟨"Google Pixel 7 Pro", "Google", "true"⟩]) (some "Pixel 7") =
      some ⟨"Google Pixel 7 Pro", "Google", "true"⟩ ∧
    specExactSearch [⟨"Google Pixel 7 Pro", "Google", "true"⟩] "Pixel 7" = none ∧
    specSubstrSearch [⟨"Google Pixel 7 Pro", "Google", "true"⟩] "Pixel 7" =
      some ⟨"Google Pixel 7 Pro", "Google", "true"⟩ := by
  have h := claim7_searchByName_stages [⟨"Google Pixel 7 Pro", "Google", "true"⟩]
    "Pixel 7" rfl (by decide)
  refine ⟨?_, rfl, rfl⟩
  rw [h]
  rfl

/-! ## Claim C4 -/

/-- The Android block never touches the iPhone fingerprint local. -/
theorem androidBlock_iphoneFp (c : CorpusState) (s : SignalSet) (st : ResState) :
    (androidBlock c s st).iphoneFingerprint = st.iphoneFingerprint := by
  unfold androidBlock
  repeat' (first | split | rfl)

/-- The iPhone block never touches the Android fingerprint local. -/
theorem iphoneBlock_androidFp (c : CorpusState) (s : SignalSet) (st : ResState) :
    (iphoneBlock c s st).androidFingerprint = st.androidFingerprint := by
  unfold iphoneBlock
  repeat' (first | split | rfl)

/-- When the Android block fired, the iPhone block is skipped entirely. -/
theorem iphoneBlock_skip (c : CorpusState) (s : SignalSet) (st : ResState)
    (h : st.androidFingerprint.isSome = true) : iphoneBlock c s st = st := by
  unfold iphoneBlock
  rw [if_neg]
  rw [Bool.and_eq_true]
  intro hcon
  rw [Option.isNone_iff_eq_none] at hcon
  rw [hcon.1] at h
  exact Bool.false_ne_true h

/-- The client-hints step never touches the fingerprint locals. -/
theorem clientHintsBlock_fps (c : CorpusState) (s : SignalSet) (st : ResState) :
    (clientHintsBlock c s st).androidFingerprint = st.androidFingerprint ∧
    (clientHintsBlock c s st).iphoneFingerprint = st.iphoneFingerprint := by
  unfold clientHintsBlock
  repeat' (first | split | (exact ⟨rfl, rfl⟩) | dsimp only)

/-- The advanced-match step never touches the fingerprint locals. -/
theorem advancedBlock_fps (c : CorpusState) (s : SignalSet) (st : ResState) :
    (advancedBlock c s st).androidFingerprint = st.androidFingerprint ∧
    (advancedBlock c s st).iphoneFingerprint = st.iphoneFingerprint := by
  unfold advancedBlock
  repeat' (first | split | (exact ⟨rfl, rfl⟩))

/-- The simple-search step never touches the fingerprint locals. -/
theorem simpleBlock_fps (c : CorpusState) (s : SignalSet) (st : ResState) :
    (simpleBlock c s st).androidFingerprint = st.androidFingerprint ∧
    (simpleBlock c s st).iphoneFingerprint = st.iphoneFingerprint := by
  unfold simpleBlock
  repeat' (first | split | (exact ⟨rfl, rfl⟩) | dsimp only)

/-- Claim C4, counterexample: a resolution whose identity comes from the
non-unique Motorola bucket of the Android GPU table (three candidate
models, empty corpus) still carries isResolutionBased = false — the flag
only reflects the iPhone fingerprint, contradicting the claim that it is
true for every non-unique fingerprint origin. -/
theorem claim4_android_flag_counterexample :
    (resolveDevice (.loaded []) sigC4).androidFingerprint.map (fun fp => fp.isUnique) =
      some false ∧
    (resolveDevice (.loaded []) sigC4).deducedModel =
      some "Motorola Edge 50 / Moto G84 Series" ∧
    (resolveDevice (.loaded []) sigC4).gsmaData = none ∧
    (resolveDevice (.loaded []) sigC4).isResolutionBased = false := by
  exact ⟨rfl, rfl, rfl, rfl⟩

/-- Claim C4 (amended): isResolutionBased is true exactly when the iPhone
fingerprint resolver produced a non-unique candidate set; resolutions whose
identity came from the Android GPU table always carry
isResolutionBased = false. -/
theorem claim4_isResolutionBased_amended :
    ∀ (c : CorpusState) (s : SignalSet),
      ((resolveDevice c s).androidFingerprint.isSome = true →
        (resolveDevice c s).isResolutionBased = false) ∧
      ((resolveDevice c s).isResolutionBased = true ↔
        ∃ fp, (resolveDevice c s).iphoneFingerprint = some fp ∧ fp.isUnique = false) := by
  intro c s
  have hout : resolveDevice c s =
      finalizeOutcome (simpleBlock c s (advancedBlock c s (clientHintsBlock c s
        (iphoneBlock c s (androidBlock c s initState))))) := rfl
  have hA5 : (resolveDevice c s).androidFingerprint =
      (iphoneBlock c s (androidBlock c s initState)).androidFingerprint := by
    rw [hout]
    show (simpleBlock c s _).androidFingerprint = _
    rw [(simpleBlock_fps c s _).1, (advancedBlock_fps c s _).1, (clientHintsBlock_fps c s _).1]
  have hI5 : (resolveDevice c s).iphoneFingerprint =
      (iphoneBlock c s (androidBlock c s initState)).iphoneFingerprint := by
    rw [hout]
    show (simpleBlock c s _).iphoneFingerprint = _
    rw [(simpleBlock_fps c s _).2, (advancedBlock_fps c s _).2, (clientHintsBlock_fps c s _).2]
  have hRB : (resolveDevice c s).isResolutionBased =
      (match (resolveDevice c s).iphoneFingerprint with
       | some fp => !fp.isUnique
       | none => false) := by
    rw [hout]
    rfl
  constructor
  · intro hsome
    rw [hA5, iphoneBlock_androidFp] at hsome
    have hskip : iphoneBlock c s (androidBlock c s initState) = androidBlock c s initState :=
      iphoneBlock_skip c s _ hsome
    have hnone : (resolveDevice c s).iphoneFingerprint = none := by
      rw [hI5, hskip, androidBlock_iphoneFp]
      rfl
    rw [hRB, hnone]
  · rw [hRB]
    cases hfp : (resolveDevice c s).iphoneFingerprint with
    | none => simp
    | some fp =>
      cases hu : fp.isUnique <;> simp [hu]

/-- Witness for the amended claim C4: on the Motorola scan the Android
fingerprint is present, so the flag is false. -/
theorem claim4_amended_witness :
    (resolveDevice (.loaded []) sigC4).isResolutionBased = false :=
  (claim4_isResolutionBased_amended (.loaded []) sigC4).1 rfl

/-! ## Claim C9 -/

/-- A pattern starts any list it prefixes. -/
theorem listStarts_self_append (p suf : List Char) : listStarts p (p ++ suf) = true := by
  induction p with
  | nil => rfl
  | cons c cs ih => simp [listStarts, ih]

/-- A pattern occurs in any list that contains it contiguously. -/
theorem listOccurs_parts (p pre suf : List Char) :
    listOccurs p (pre ++ (p ++ suf)) = true := by
  induction pre with
  | nil =>
    show listOccurs p (p ++ suf) = true
    cases p with
    | nil =>
      cases suf with
      | nil => rfl
      | cons c cs => rfl
    | cons c cs =>
      show listOccurs (c :: cs) (c :: (cs ++ suf)) = true
      have h := listStarts_self_append (c :: cs) suf
      rw [List.cons_append] at h
      simp [listOccurs, h]
  | cons a t ih =>
    show listOccurs p (a :: (t ++ (p ++ suf))) = true
    simp [listOccurs, ih]

/-- A string occurs in any concatenation that embeds it between two parts. -/
theorem strOccurs_parts (pre mid suf : String) :
    strOccurs (pre ++ (mid ++ suf)) mid = true := by
  show listOccurs mid.data (pre ++ (mid ++ suf)).data = true
  rw [String.data_append, String.data_append]
  exact listOccurs_parts mid.data pre.data suf.data

/-- Every element of an ascending sorted list is at most its last element. -/
theorem sorted_le_getLast :
    ∀ (l : List Nat), List.Sorted (· ≤ ·) l → ∀ (h : l ≠ []) (x : Nat), x ∈ l →
      x ≤ l.getLast h := by
  intro l
  induction l with
  | nil => intro _ h; exact absurd rfl h
  | cons a t ih =>
    intro hs h x hx
    cases t with
    | nil =>
      have hxa : x = a := List.mem_singleton.mp hx
      subst hxa
      exact le_of_eq rfl
    | cons b t2 =>
      have hgl : (a :: b :: t2).getLast h = (b :: t2).getLast (List.cons_ne_nil b t2) := rfl
      rcases List.mem_cons.mp hx with rfl | hx2
      · have hab : x ≤ b := List.rel_of_sorted_cons hs b (List.mem_cons_self b t2)
        have hbl : b ≤ (b :: t2).getLast (List.cons_ne_nil b t2) :=
          ih hs.of_cons (List.cons_ne_nil b t2) b (List.mem_cons_self b t2)
        rw [hgl]
        exact le_trans hab hbl
      · rw [hgl]
        exact ih hs.of_cons (List.cons_ne_nil b t2) x hx2

/-- Claim C9: when the generation numbers extracted from a candidate list
differ, the synthesized series label contains both the smallest and the
largest extracted generation number; in particular the four-candidate
390x844 bucket yields a label mentioning both "12" and "14". -/
theorem claim9_series_label (models : List String) (mn mx : Nat)
    (hmn : mn ∈ genNums models) (hlb : ∀ x ∈ genNums models, mn ≤ x)
    (hmx : mx ∈ genNums models) (hub : ∀ x ∈ genNums models, x ≤ mx)
    (hne : mn ≠ mx) :
    strOccurs (buildSeriesDisplayName models) (toString mn) = true ∧
    strOccurs (buildSeriesDisplayName models) (toString mx) = true := by
  have hperm : (sortNums (genNums models)).Perm (genNums models) :=
    List.perm_insertionSort (· ≤ ·) (genNums models)
  have hsorted : List.Sorted (· ≤ ·) (sortNums (genNums models)) :=
    List.sorted_insertionSort (· ≤ ·) (genNums models)
  obtain ⟨n0, rest, hEq⟩ : ∃ n0 rest, sortNums (genNums models) = n0 :: rest := by
    cases hs : sortNums (genNums models) with
    | nil =>
      exfalso
      have hmem : mn ∈ sortNums (genNums models) := hperm.mem_iff.mpr hmn
      rw [hs] at hmem
      exact List.not_mem_nil mn hmem
    | cons a t => exact ⟨a, t, rfl⟩
  have hsorted' : List.Sorted (· ≤ ·) (n0 :: rest) := by
    rw [← hEq]
    exact hsorted
  have hn0_mem : n0 ∈ genNums models := by
    refine hperm.mem_iff.mp ?_
    rw [hEq]
    exact List.mem_cons_self n0 rest
  have hmn_sorted : mn ∈ n0 :: rest := by
    rw [← hEq]
    exact hperm.mem_iff.mpr hmn
  have hhead : n0 = mn := by
    refine le_antisymm ?_ (hlb n0 hn0_mem)
    rcases List.mem_cons.mp hmn_sorted with h | h
    · exact le_of_eq h.symm
    · exact List.rel_of_sorted_cons hsorted' mn h
  subst hhead
  have hlast_mem : (n0 :: rest).getLast (List.cons_ne_nil n0 rest) ∈ genNums models := by
    refine hperm.mem_iff.mp ?_
    rw [hEq]
    exact List.getLast_mem (List.cons_ne_nil n0 rest)
  have hmx_sorted : mx ∈ n0 :: rest := by
    rw [← hEq]
    exact hperm.mem_iff.mpr hmx
  have hlastEq : (n0 :: rest).getLast (List.cons_ne_nil n0 rest) = mx :=
    le_antisymm (hub _ hlast_mem)
      (sorted_le_getLast (n0 :: rest) hsorted' (List.cons_ne_nil n0 rest) mx hmx_sorted)
  have hbeq : (n0 == mx) = false := beq_eq_false_iff_ne.mpr hne
  obtain ⟨tail, htail⟩ :
      ∃ tail : String, buildSeriesDisplayName models = seriesCore n0 mx ++ tail := by
    unfold buildSeriesDisplayName
    rw [hEq]
    dsimp only
    rw [hlastEq, hbeq, if_neg Bool.false_ne_true]
    cases dedupStr ((dedupStr ((models.map extractVariant).filterMap id)).filter
        (fun v => !v.data.isEmpty)) with
    | nil => exact ⟨" Series", rfl⟩
    | cons v vs =>
      cases vs with
      | nil =>
        refine ⟨" " ++ v ++ " Series", ?_⟩
        show seriesCore n0 mx ++ " " ++ v ++ " Series" = _
        simp only [String.append_assoc]
      | cons w ws =>
        refine ⟨" " ++ String.intercalate " & " (v :: w :: ws) ++ " Series", ?_⟩
        show seriesCore n0 mx ++ " " ++ String.intercalate " & " (v :: w :: ws) ++ " Series" = _
        simp only [String.append_assoc]
  rw [htail]
  constructor
  · have hshape : seriesCore n0 mx ++ tail =
        "iPhone " ++ (toString n0 ++ (" / " ++ toString mx ++ tail)) := by
      simp only [seriesCore, String.append_assoc]
    rw [hshape]
    exact strOccurs_parts "iPhone " (toString n0) (" / " ++ toString mx ++ tail)
  · have hshape : seriesCore n0 mx ++ tail =
        ("iPhone " ++ toString n0 ++ " / ") ++ (toString mx ++ tail) := by
      simp only [seriesCore, String.append_assoc]
    rw [hshape]
    exact strOccurs_parts ("iPhone " ++ toString n0 ++ " / ") (toString mx) tail

/-- Witness for claim C9 at the 390x844 bucket candidates: the label
contains both "12" and "14". -/
theorem claim9_series_label_witness :
    strOccurs (buildSeriesDisplayName
      ["iPhone 12", "iPhone 13", "iPhone 13 Pro", "iPhone 14"]) (toString 12) = true ∧
    strOccurs (buildSeriesDisplayName
      ["iPhone 12", "iPhone 13", "iPhone 13 Pro", "iPhone 14"]) (toString 14) = true :=
  claim9_series_label ["iPhone 12", "iPhone 13", "iPhone 13 Pro", "iPhone 14"] 12 14
    (by decide) (by decide) (by decide) (by decide) (by decide)

end DeviceGuess

